import Mathlib

/-!
# Verification of the FrameApp backend (src/backend/main.py)

A shallow embedding of the authentication and movie-catalog logic of the
FastAPI service in `src/backend/main.py`, together with theorems settling
the specification claims about it.

Modelling conventions:
* Time is a `Nat` (seconds since an arbitrary epoch); `datetime.utcnow()`
  and `datetime.now(timezone.utc)` become explicit `now : Nat` parameters.
* The database tables `users` and `movies` are Lean lists of row
  structures; primary-key assignment by the storage engine becomes an
  explicit `newId` parameter.
* Fallible Python code (raised `HTTPException`s, library `ValueError`s)
  becomes `Except`.
* Library calls (`jwt`, `bcrypt`, FastAPI's `HTTPBearer`) are embedded
  following their documented behaviour; the cryptographic primitives are
  idealised as injective functions (an ideal MAC / ideal KDF), which is
  the standard symbolic model for reasoning about signature and hash
  comparisons.
-/

namespace FrameApp

/-! ## Token service (PyJWT, `SECRET_KEY`, `ALGORITHM = "HS256"`) -/

/-- JWT signing algorithms as declared in a token header.  The service
pins `ALGORITHM = "HS256"` (main.py line 40); an attacker-supplied token
may declare any algorithm, so the type has more than one constructor. -/
inductive Alg where
  | HS256
  | HS512
  | noneAlg
deriving DecidableEq, Repr

/-- The claims carried by a token of this service: `create_access_token`
encodes the caller-supplied dict (here: an optional `"sub"` claim) plus
an `"exp"` instant (main.py lines 170-175). -/
structure Payload where
  sub : Option Int
  exp : Nat
deriving DecidableEq, Repr

/-- Ideal-MAC model of the HMAC signature over a serialized header and
payload: a signature value is identified with the (key, algorithm,
payload) triple that produced it, so two signatures are equal exactly
when key, algorithm and signed content all agree.  This idealises
HMAC's unforgeability and collision resistance. -/
structure Sig where
  key : String
  alg : Alg
  payload : Payload
deriving DecidableEq, Repr

/-- Producing a MAC over the token content under `key`. -/
def hmacSign (key : String) (alg : Alg) (p : Payload) : Sig :=
  ⟨key, alg, p⟩

/-- A structurally well-formed JWT: declared algorithm, payload, and
signature. -/
structure Jwt where
  alg : Alg
  payload : Payload
  sig : Sig
deriving DecidableEq, Repr

/-- The wire form of a bearer credential: either a string that does not
parse as a JWT at all, or a structurally well-formed token. -/
inductive JwtWire where
  | malformed (raw : String)
  | token (t : Jwt)
deriving DecidableEq, Repr

/-- The `jwt.PyJWTError` subclasses that `jwt.decode` can raise on the
paths modelled here. -/
inductive JwtError where
  | decodeError
  | invalidAlgorithm
  | invalidSignature
  | expiredSignature
deriving DecidableEq, Repr

/-- `ACCESS_TOKEN_EXPIRE_MINUTES = 30` (main.py line 41). -/
def ACCESS_TOKEN_EXPIRE_MINUTES : Nat := 30

/-- `create_access_token` (main.py lines 170-175): copies the data dict
(the service always passes `{"sub": user_id}`), adds
`exp = utcnow() + 30 minutes`, and signs with `SECRET_KEY` under HS256. -/
def create_access_token (key : String) (sub : Int) (now : Nat) : Jwt :=
  let payload : Payload := ⟨some sub, now + ACCESS_TOKEN_EXPIRE_MINUTES * 60⟩
  ⟨Alg.HS256, payload, hmacSign key Alg.HS256 payload⟩

/-- `jwt.decode(token, key, algorithms=[...])`: fails on a string that is
not a JWT; rejects a declared algorithm outside the allow-list before
checking the signature (PyJWT's algorithm-confusion defence); verifies
the signature; then rejects the token when `exp <= now` (PyJWT's
`_validate_exp` with zero leeway). -/
def jwt_decode (key : String) (algorithms : List Alg) (now : Nat) :
    JwtWire → Except JwtError Payload
  | .malformed _ => .error .decodeError
  | .token t =>
    if t.alg ∈ algorithms then
      if t.sig = hmacSign key t.alg t.payload then
        if t.payload.exp ≤ now then .error .expiredSignature
        else .ok t.payload
      else .error .invalidSignature
    else .error .invalidAlgorithm

/-- An `HTTPException(status_code, detail)`. -/
structure HttpError where
  status : Nat
  detail : String
deriving DecidableEq, Repr

/-- The token-checking prefix of `get_current_user` (main.py lines
179-192): decode under `SECRET_KEY` with `algorithms=[ALGORITHM]`; any
`PyJWTError`, and a missing `"sub"` claim, become a 401. -/
def token_check (key : String) (now : Nat) (w : JwtWire) : Except HttpError Int :=
  match jwt_decode key [Alg.HS256] now w with
  | .error _ => .error ⟨401, "Invalid authentication credentials"⟩
  | .ok payload =>
    match payload.sub with
    | none => .error ⟨401, "Invalid authentication credentials"⟩
    | some user_id => .ok user_id

/-! ## Users table and `get_current_user` -/

/-- A row of the `users` table.  The stored `password_hash` is kept as
the byte string produced by `hash_password`.  The schema itself is not
in src/; its columns are those named by the queries in main.py, and
`is_active` defaults to true per the spec's data model ("active flag
(boolean, default true)"). -/
structure UserRow where
  id : Int
  email : String
  username : String
  password_hash : List Nat
  is_active : Bool
  created_at : Nat
deriving DecidableEq, Repr

/-- `SELECT * FROM users WHERE id = $1 AND is_active = true` via
`fetchrow` (main.py lines 195-198): the first row matching both
conditions, if any. -/
def fetch_active_user (users : List UserRow) (user_id : Int) : Option UserRow :=
  users.find? (fun r => r.id == user_id && r.is_active)

/-- `get_current_user` (main.py lines 177-204): token check, then load
the active user row by the token's subject; a missing row is a 404. -/
def get_current_user (key : String) (now : Nat) (users : List UserRow)
    (w : JwtWire) : Except HttpError UserRow :=
  match token_check key now w with
  | .error e => .error e
  | .ok user_id =>
    match fetch_active_user users user_id with
    | none => .error ⟨404, "User not found"⟩
    | some u => .ok u

/-! ## Credential hasher (`bcrypt`) -/

/-- bcrypt derives its key from at most the first 72 bytes of the
password; longer inputs are silently truncated (documented behaviour of
the bcrypt algorithm and of the `bcrypt` Python package). -/
def BCRYPT_MAX_KEY_BYTES : Nat := 72

/-- A well-formed bcrypt hash: the salt together with the digest that
the EksBlowfish key derivation produced from (salt, truncated key). -/
structure BcryptHash where
  salt : Nat
  digest : List Nat
deriving DecidableEq, Repr

/-- Ideal model of the EksBlowfish key derivation: the digest is
identified with an injective encoding of the (salt, key) pair, so two
digests agree exactly when salt and key agree. -/
def bcrypt_kdf (salt : Nat) (keyBytes : List Nat) : List Nat :=
  salt :: keyBytes

/-- The pure derivation core of `bcrypt.hashpw`, applied once the
package's NUL-byte guard has passed: derive the digest from the salt and
the password truncated to 72 bytes. -/
def bcrypt_derive (password : List Nat) (salt : Nat) : BcryptHash :=
  ⟨salt, bcrypt_kdf salt (password.take BCRYPT_MAX_KEY_BYTES)⟩

/-- `bcrypt.hashpw(password, salt)`: the package raises
`ValueError("password may not contain NUL bytes")` on a password
containing a NUL byte, and otherwise derives the hash. -/
def bcrypt_hashpw (password : List Nat) (salt : Nat) :
    Except String BcryptHash :=
  if 0 ∈ password then .error "password may not contain NUL bytes"
  else .ok (bcrypt_derive password salt)

/-- The modular-crypt string form `$2b$<salt><digest>` of a bcrypt hash
(bytes 36, 50, 98, 36 are `$2b$`).  As in the real radix-64 alphabet, no
payload byte of a rendered hash is NUL: salt and digest bytes are
shifted into the positive range, injectively. -/
def render_hash (h : BcryptHash) : List Nat :=
  36 :: 50 :: 98 :: 36 :: (h.salt + 1) :: h.digest.map (· + 1)

/-- Recovering salt and digest from a hash string; a byte string that
does not carry the `$2b$` structure is malformed. -/
def parse_hash : List Nat → Option BcryptHash
  | 36 :: 50 :: 98 :: 36 :: s :: d => some ⟨s - 1, d.map (· - 1)⟩
  | _ => none

/-- `bcrypt.checkpw(password, hashed_password)`: the package first
raises `ValueError("password and hashed_password may not contain NUL
bytes")` when either argument contains a NUL byte; it then re-derives
using the salt embedded in `hashed_password` and compares — a byte
string that is not a well-formed hash makes that inner `hashpw` call
raise `ValueError("Invalid salt")` rather than return a boolean. -/
def bcrypt_checkpw (password : List Nat) (hashed : List Nat) :
    Except String Bool :=
  if 0 ∈ password ∨ 0 ∈ hashed then
    .error "password and hashed_password may not contain NUL bytes"
  else
    match parse_hash hashed with
    | none => .error "Invalid salt"
    | some h => .ok (bcrypt_derive password h.salt == h)

/-- `hash_password` (main.py lines 158-161): hash under a fresh random
salt; the salt drawn by `bcrypt.gensalt()` is an explicit parameter, and
`bcrypt.hashpw`'s NUL-byte `ValueError` propagates. -/
def hash_password (salt : Nat) (password : List Nat) :
    Except String (List Nat) :=
  (bcrypt_hashpw password salt).map render_hash

/-- `verify_password` (main.py lines 163-168): delegate to
`bcrypt.checkpw` on the encoded arguments, with no exception handling
of its own. -/
def verify_password (plain : List Nat) (hashed : List Nat) :
    Except String Bool :=
  bcrypt_checkpw plain hashed

/-- A rendered hash never contains a NUL byte. -/
theorem zero_not_mem_render_hash (h : BcryptHash) : 0 ∉ render_hash h := by
  intro hm
  simp [render_hash, List.mem_cons, List.mem_map] at hm

/-- Parsing recovers exactly the rendered hash. -/
theorem parse_render_hash (h : BcryptHash) :
    parse_hash (render_hash h) = some h := by
  cases h with
  | mk s d =>
    simp only [parse_hash, render_hash, List.map_map, Nat.add_sub_cancel,
      Option.some.injEq, BcryptHash.mk.injEq, true_and]
    rw [show ((fun x => x - 1) ∘ fun x => x + 1) = (id : Nat → Nat) from
      funext fun x => by simp]
    exact List.map_id d

/-! ## Registration -/

/-- The `UserCreate` request body (validated fields: email pattern,
username length, password length — validation itself is the framework's
concern and not modelled). -/
structure UserCreate where
  email : String
  username : String
  password : List Nat
deriving DecidableEq, Repr

/-- `register` (main.py lines 219-251): reject when any stored row has
the requested email (`SELECT id FROM users WHERE email = $1`); otherwise
hash the password (an uncaught `ValueError` from `hash_password`
surfaces as a 500 with nothing inserted), insert the row (storage
assigns `newId`; `is_active` takes its default true), and return a token
for the new id.  The pair is (HTTP outcome, users table after the
call). -/
def register (users : List UserRow) (u : UserCreate) (salt : Nat)
    (newId : Int) (now : Nat) (key : String) :
    Except HttpError Jwt × List UserRow :=
  match users.find? (fun r => r.email == u.email) with
  | some _ => (.error ⟨400, "Email already registered"⟩, users)
  | none =>
    match hash_password salt u.password with
    | .error _ => (.error ⟨500, "Internal Server Error"⟩, users)
    | .ok hashed =>
      let newRow : UserRow := ⟨newId, u.email, u.username, hashed, true, now⟩
      (.ok (create_access_token key newId now), users ++ [newRow])

/-! ## Movies -/

/-- The `MovieCreate` request body (main.py lines 49-61). -/
structure MovieCreate where
  title : String
  genre : String
  duration : Int
  rating : Rat
  description : String
  poster_url : String
  is_new : Bool
deriving DecidableEq, Repr

/-- A row of the `movies` table: the columns named by the INSERT in
`create_movie` plus the storage-assigned `id` and the `views_count`
column, whose default of 0 is the spec's "view counter ... starts at 0"
(the schema is not in src/). -/
structure MovieRow where
  id : Int
  title : String
  genre : String
  duration : Int
  rating : Rat
  description : String
  poster_url : String
  is_new : Bool
  created_at : Nat
  views_count : Int
  user_id : Int
deriving DecidableEq, Repr

/-- The `Movie` response model (main.py lines 63-70): `MovieBase` plus
`id`, `created_at`, `views_count`.  It has no `user_id` field, so a row
serialized under `response_model=Movie` loses its `user_id`. -/
structure Movie where
  title : String
  genre : String
  duration : Int
  rating : Rat
  description : String
  poster_url : String
  is_new : Bool
  id : Int
  created_at : Nat
  views_count : Int
deriving DecidableEq, Repr

/-- Serializing a `movies` row through `response_model=Movie`: fields
absent from the model (here `user_id`) are dropped from the response. -/
def movie_response (r : MovieRow) : Movie :=
  ⟨r.title, r.genre, r.duration, r.rating, r.description, r.poster_url,
    r.is_new, r.id, r.created_at, r.views_count⟩

/-- Descending creation-time order used by `ORDER BY created_at DESC`. -/
def moviesOrder (a b : MovieRow) : Prop :=
  b.created_at ≤ a.created_at

instance : DecidableRel moviesOrder :=
  fun a b => Nat.decLe b.created_at a.created_at

instance : IsTotal MovieRow moviesOrder :=
  ⟨fun a b => Nat.le_total b.created_at a.created_at⟩

instance : IsTrans MovieRow moviesOrder :=
  ⟨fun _ _ _ h1 h2 => Nat.le_trans h2 h1⟩

/-- Does a row pass the `($1::text IS NULL OR genre = $1)` filter? -/
def genre_matches (genre : Option String) (r : MovieRow) : Bool :=
  match genre with
  | none => true
  | some g => r.genre == g

/-- `get_movies` (main.py lines 278-297): no validation is applied to
`skip` or `limit`; the query filters by genre, orders by `created_at`
descending, then applies `OFFSET skip` and `LIMIT limit`.  PostgreSQL
rejects a negative OFFSET or LIMIT, which surfaces as an unhandled
storage error (HTTP 500). -/
def get_movies (movies : List MovieRow) (skip limit : Int)
    (genre : Option String) : Except HttpError (List MovieRow) :=
  if skip < 0 ∨ limit < 0 then
    .error ⟨500, "Internal Server Error"⟩
  else
    .ok ((((movies.filter (genre_matches genre)).insertionSort
        moviesOrder).drop skip.toNat).take limit.toNat)

/-- `get_movie` (main.py lines 299-319): fetch the row by id; absent is
a 404 with no further statement executed; otherwise run
`UPDATE movies SET views_count = views_count + 1 WHERE id = $1` and
return the row read before the update.  The pair is (HTTP outcome,
movies table after the call). -/
def get_movie (movies : List MovieRow) (movie_id : Int) :
    Except HttpError MovieRow × List MovieRow :=
  match movies.find? (fun r => r.id == movie_id) with
  | none => (.error ⟨404, "Movie not found"⟩, movies)
  | some m =>
    (.ok m,
      movies.map (fun r =>
        if r.id == movie_id then { r with views_count := r.views_count + 1 }
        else r))

/-- `create_movie` (main.py lines 321-339): insert the row stamped with
`datetime.now(timezone.utc)` and `current_user['id']`, with
`RETURNING *` bound to `new_movie` — and then the function body ends:
there is no return statement, so the handler's value is Python's `None`
(modelled `Option.none`).  The pair is (handler return value, movies
table after the call). -/
def create_movie (movies : List MovieRow) (current_user : UserRow)
    (movie : MovieCreate) (now : Nat) (newId : Int) :
    Option MovieRow × List MovieRow :=
  let newRow : MovieRow :=
    ⟨newId, movie.title, movie.genre, movie.duration, movie.rating,
      movie.description, movie.poster_url, movie.is_new, now, 0,
      current_user.id⟩
  (none, movies ++ [newRow])

/-! ## The protected route `POST /api/movies` -/

/-- Python's `str.lower()`, applied character by character. -/
def str_lower (s : String) : String :=
  ⟨s.data.map Char.toLower⟩

/-- The credential part of an `Authorization` header: either nothing
follows the scheme (a header such as `Authorization: Bearer`), or a
nonempty credential string, carried here in its parsed wire form. -/
inductive Credential where
  | empty
  | wire (w : JwtWire)
deriving DecidableEq, Repr

/-- An `Authorization` header split on its first space into scheme and
credential, as FastAPI's `get_authorization_scheme_param` does. -/
structure AuthHeader where
  scheme : String
  credentials : Credential
deriving DecidableEq, Repr

/-- `security = HTTPBearer()` (main.py line 44) with its default
`auto_error=True`: FastAPI's `HTTPBearer` raises HTTP 403
"Not authenticated" when the `Authorization` header is absent, or when
its scheme or credential part is empty (e.g. a bare
`Authorization: Bearer`), and HTTP 403 "Invalid authentication
credentials" when the scheme is not `bearer` (case-insensitively); it
runs before the route handler. -/
def http_bearer : Option AuthHeader → Except HttpError JwtWire
  | none => .error ⟨403, "Not authenticated"⟩
  | some h =>
    match h.credentials with
    | .empty => .error ⟨403, "Not authenticated"⟩
    | .wire w =>
      if h.scheme = "" then .error ⟨403, "Not authenticated"⟩
      else if str_lower h.scheme == "bearer" then .ok w
      else .error ⟨403, "Invalid authentication credentials"⟩

/-- FastAPI serializing the handler's return value under
`response_model=Movie`: a `None` value does not validate against the
model, so the response is an internal server error (500). -/
def validate_movie_response : Option MovieRow → Except HttpError Movie
  | none => .error ⟨500, "Internal Server Error"⟩
  | some r => .ok (movie_response r)

/-- The full `POST /api/movies` pipeline: `HTTPBearer` dependency, then
`get_current_user`, then the `create_movie` handler; any dependency
failure short-circuits before the handler runs, leaving the movies table
untouched.  The pair is (HTTP outcome as seen by the client, movies
table after the request). -/
def post_movies (key : String) (now : Nat) (auth : Option AuthHeader)
    (users : List UserRow) (movies : List MovieRow) (movie : MovieCreate)
    (newId : Int) : Except HttpError Movie × List MovieRow :=
  match http_bearer auth with
  | .error e => (.error e, movies)
  | .ok w =>
    match get_current_user key now users w with
    | .error e => (.error e, movies)
    | .ok u =>
      let result := create_movie movies u movie now newId
      (validate_movie_response result.1, result.2)

/-! ## Theorems -/

/-- C1: Token verification succeeds exactly on valid, fresh tokens: a
token issued by `create_access_token` for subject `uid` passes
`get_current_user`'s token check with result `uid` while the 30-minute
TTL has not elapsed, and the check fails with the 401 authentication
error when the token is expired, signed under a different secret key,
has its payload altered, is structurally malformed, or declares an
algorithm other than HS256. -/
theorem token_verification_correct (key key2 : String) (uid : Int)
    (issued now : Nat) :
    (now < issued + ACCESS_TOKEN_EXPIRE_MINUTES * 60 →
      token_check key now (.token (create_access_token key uid issued)) =
        .ok uid) ∧
    (issued + ACCESS_TOKEN_EXPIRE_MINUTES * 60 ≤ now →
      token_check key now (.token (create_access_token key uid issued)) =
        .error ⟨401, "Invalid authentication credentials"⟩) ∧
    (key2 ≠ key →
      token_check key now (.token (create_access_token key2 uid issued)) =
        .error ⟨401, "Invalid authentication credentials"⟩) ∧
    (∀ p : Payload, p ≠ (create_access_token key uid issued).payload →
      token_check key now
          (.token ⟨Alg.HS256, p, (create_access_token key uid issued).sig⟩) =
        .error ⟨401, "Invalid authentication credentials"⟩) ∧
    (∀ raw : String,
      token_check key now (.malformed raw) =
        .error ⟨401, "Invalid authentication credentials"⟩) ∧
    (∀ (a : Alg) (s : Sig), a ≠ Alg.HS256 →
      token_check key now
          (.token ⟨a, (create_access_token key uid issued).payload, s⟩) =
        .error ⟨401, "Invalid authentication credentials"⟩) := by
  refine ⟨?_, ?_, ?_, ?_, ?_, ?_⟩
  · intro h
    simp [token_check, jwt_decode, create_access_token, hmacSign,
      Nat.not_le.mpr h]
  · intro h
    simp [token_check, jwt_decode, create_access_token, hmacSign, h]
  · intro h
    simp [token_check, jwt_decode, create_access_token, hmacSign,
      Sig.mk.injEq, h]
  · intro p h
    have h2 : (⟨some uid, issued + ACCESS_TOKEN_EXPIRE_MINUTES * 60⟩ : Payload) ≠ p := by
      simpa [create_access_token] using Ne.symm h
    simp [token_check, jwt_decode, create_access_token, hmacSign,
      Sig.mk.injEq, h2]
  · intro raw
    simp [token_check, jwt_decode]
  · intro a s h
    simp [token_check, jwt_decode, h]

/-- Witness for C1: concrete evaluations — a token for subject 5 issued
at time 0 under key "secret" is accepted at time 10, rejected at time
1800 (expiry), and rejected under the key "other". -/
theorem token_verification_correct_witness :
    token_check "secret" 10
        (.token (create_access_token "secret" 5 0)) = .ok 5 ∧
    token_check "secret" 1800
        (.token (create_access_token "secret" 5 0)) =
      .error ⟨401, "Invalid authentication credentials"⟩ ∧
    token_check "other" 10
        (.token (create_access_token "secret" 5 0)) =
      .error ⟨401, "Invalid authentication credentials"⟩ :=
  ⟨(token_verification_correct "secret" "other" 5 0 10).1 (by decide),
   (token_verification_correct "secret" "other" 5 0 1800).2.1 (by decide),
   (token_verification_correct "other" "secret" 5 0 10).2.2.1 (by decide)⟩

/-- C3: when the token verifies to subject `uid` but every stored row
with id `uid` is inactive (in particular when no row with id `uid`
exists at all), `get_current_user` rejects the request with the 404
"User not found" error — so a deactivated user is rejected even with a
valid, unexpired token. -/
theorem inactive_or_missing_user_rejected (key : String) (now : Nat)
    (users : List UserRow) (w : JwtWire) (uid : Int)
    (htok : token_check key now w = .ok uid)
    (hrow : ∀ r ∈ users, r.id = uid → r.is_active = false) :
    get_current_user key now users w = .error ⟨404, "User not found"⟩ := by
  have hfind : fetch_active_user users uid = none := by
    apply List.find?_eq_none.mpr
    intro r hr
    simp only [Bool.and_eq_true, beq_iff_eq, not_and]
    intro hid
    simp [hrow r hr hid]
  simp [get_current_user, htok, hfind]

/-- Witness for C3: a valid token for subject 5, while the only row with
id 5 is deactivated, yields the 404 error. -/
theorem inactive_or_missing_user_rejected_witness :
    get_current_user "secret" 10 [⟨5, "a@x.com", "alice", [], false, 0⟩]
        (.token (create_access_token "secret" 5 0)) =
      .error ⟨404, "User not found"⟩ :=
  inactive_or_missing_user_rejected "secret" 10
    [⟨5, "a@x.com", "alice", [], false, 0⟩]
    (.token (create_access_token "secret" 5 0)) 5 rfl (by decide)

/-- Every failure of the token check is the single 401 authentication
error raised by `get_current_user` (main.py lines 183-192). -/
theorem token_check_error_is_401 (key : String) (now : Nat) (w : JwtWire)
    (e : HttpError) (h : token_check key now w = .error e) :
    e = ⟨401, "Invalid authentication credentials"⟩ := by
  unfold token_check at h
  split at h
  · simpa using h.symm
  · split at h
    · simpa using h.symm
    · simp at h

/-- A sample request body used by concrete evaluations. -/
def sampleMovieCreate : MovieCreate :=
  ⟨"T", "Drama", 100, 3, "d", "u", false⟩

/-- C2 (amended): a `POST /api/movies` request with no `Authorization`
header, with an empty credential after the scheme, or with a non-bearer
scheme, is rejected by the `HTTPBearer` dependency with HTTP 403 (not
401) before the handler runs; a request carrying a bearer credential
whose token fails the token check is rejected with that check's 401
error; in every case the movies table is unchanged, so no row is
persisted. -/
theorem protected_route_rejects_unauthenticated (key : String) (now : Nat)
    (users : List UserRow) (movies : List MovieRow) (movie : MovieCreate)
    (newId : Int) :
    (post_movies key now none users movies movie newId =
      (.error ⟨403, "Not authenticated"⟩, movies)) ∧
    (∀ s : String,
      post_movies key now (some ⟨s, .empty⟩) users movies movie newId =
        (.error ⟨403, "Not authenticated"⟩, movies)) ∧
    (∀ (s : String) (w : JwtWire), s ≠ "" → str_lower s ≠ "bearer" →
      post_movies key now (some ⟨s, .wire w⟩) users movies movie newId =
        (.error ⟨403, "Invalid authentication credentials"⟩, movies)) ∧
    (∀ (w : JwtWire) (e : HttpError), token_check key now w = .error e →
      e.status = 401 ∧
      post_movies key now (some ⟨"Bearer", .wire w⟩) users movies movie
          newId =
        (.error e, movies)) := by
  refine ⟨rfl, fun s => rfl, ?_, ?_⟩
  · intro s w hs hlow
    simp [post_movies, http_bearer, hs, hlow]
  · intro w e h
    refine ⟨by rw [token_check_error_is_401 key now w e h], ?_⟩
    have hb : http_bearer (some ⟨"Bearer", .wire w⟩) = .ok w := rfl
    simp [post_movies, hb, get_current_user, h]

/-- Counterexample to C2 as stated: a request with an absent
`Authorization` header is rejected with status 403, not 401 — FastAPI's
`HTTPBearer` dependency raises 403 "Not authenticated" for a missing
header. -/
theorem missing_header_yields_403 :
    post_movies "secret" 0 none [] [] sampleMovieCreate 1 =
      (.error ⟨403, "Not authenticated"⟩, []) ∧ (403 : Nat) ≠ 401 :=
  ⟨rfl, by decide⟩

/-- Witness for C2 (amended): concrete rejections — no header, a bare
`Authorization: Bearer`, and a `Basic` scheme each give a 403 error,
and a malformed bearer token gives the 401 error; the movies table
stays empty throughout. -/
theorem protected_route_rejects_unauthenticated_witness :
    post_movies "secret" 0 none [] [] sampleMovieCreate 1 =
      (.error ⟨403, "Not authenticated"⟩, []) ∧
    post_movies "secret" 0 (some ⟨"Bearer", .empty⟩) [] []
        sampleMovieCreate 1 =
      (.error ⟨403, "Not authenticated"⟩, []) ∧
    post_movies "secret" 0 (some ⟨"Basic", .wire (.malformed "zzz")⟩) [] []
        sampleMovieCreate 1 =
      (.error ⟨403, "Invalid authentication credentials"⟩, []) ∧
    (⟨401, "Invalid authentication credentials"⟩ : HttpError).status = 401 ∧
    post_movies "secret" 0 (some ⟨"Bearer", .wire (.malformed "zzz")⟩) [] []
        sampleMovieCreate 1 =
      (.error ⟨401, "Invalid authentication credentials"⟩, []) := by
  refine ⟨(protected_route_rejects_unauthenticated "secret" 0 [] []
    sampleMovieCreate 1).1,
    (protected_route_rejects_unauthenticated "secret" 0 [] []
      sampleMovieCreate 1).2.1 "Bearer", ?_, ?_, ?_⟩
  · exact (protected_route_rejects_unauthenticated "secret" 0 [] []
      sampleMovieCreate 1).2.2.1 "Basic" (.malformed "zzz")
      (by decide) (by decide)
  · exact ((protected_route_rejects_unauthenticated "secret" 0 [] []
      sampleMovieCreate 1).2.2.2 (.malformed "zzz") _ rfl).1
  · exact ((protected_route_rejects_unauthenticated "secret" 0 [] []
      sampleMovieCreate 1).2.2.2 (.malformed "zzz") _ rfl).2

/-- C6: registering with an email already carried by some stored user
row fails with the 400 "Email already registered" conflict, whatever the
supplied username and password, and the users table is unchanged (no row
inserted). -/
theorem register_duplicate_email_conflict (users : List UserRow)
    (email username : String) (password : List Nat) (salt : Nat)
    (newId : Int) (now : Nat) (key : String)
    (h : ∃ r ∈ users, r.email = email) :
    register users ⟨email, username, password⟩ salt newId now key =
      (.error ⟨400, "Email already registered"⟩, users) := by
  obtain ⟨r, hr, he⟩ := h
  have hne : users.find? (fun s => s.email == email) ≠ none := by
    intro hn
    have := List.find?_eq_none.mp hn r hr
    simp [he] at this
  cases hf : users.find? (fun s => s.email == email) with
  | none => exact absurd hf hne
  | some x => simp [register, hf]

/-- Witness for C6: registering "a@x.com" again, with a different
username and password, is rejected and the table is unchanged. -/
theorem register_duplicate_email_conflict_witness :
    register [⟨1, "a@x.com", "alice", [], true, 0⟩]
        ⟨"a@x.com", "bob", [1, 2, 3, 4, 5, 6]⟩ 9 2 5 "secret" =
      (.error ⟨400, "Email already registered"⟩,
        [⟨1, "a@x.com", "alice", [], true, 0⟩]) :=
  register_duplicate_email_conflict [⟨1, "a@x.com", "alice", [], true, 0⟩]
    "a@x.com" "bob" [1, 2, 3, 4, 5, 6] 9 2 5 "secret" (by decide)

/-- A sample stored movie row used by concrete evaluations. -/
def sampleMovie : MovieRow :=
  ⟨1, "T", "Drama", 100, 3, "d", "u", false, 50, 0, 7⟩

/-- C7: `get_movie` on an id matching no stored row returns the 404
"Movie not found" error and leaves every row — in particular every view
counter — unchanged; on an id whose first matching row is `m` it returns
`m` and runs the update that adds exactly 1 to the view counter of the
rows with that id, leaving all other rows unchanged. -/
theorem get_movie_spec (movies : List MovieRow) (movie_id : Int) :
    ((∀ m ∈ movies, m.id ≠ movie_id) →
      get_movie movies movie_id = (.error ⟨404, "Movie not found"⟩, movies)) ∧
    (∀ m, movies.find? (fun r => r.id == movie_id) = some m →
      (get_movie movies movie_id).1 = .ok m ∧
      (get_movie movies movie_id).2 =
        movies.map (fun r =>
          if r.id == movie_id then { r with views_count := r.views_count + 1 }
          else r)) := by
  constructor
  · intro h
    have hf : movies.find? (fun r => r.id == movie_id) = none := by
      apply List.find?_eq_none.mpr
      intro r hr
      simpa using h r hr
    simp [get_movie, hf]
  · intro m hm
    simp [get_movie, hm]

/-- Witness for C7: fetching id 1 from an empty table is a 404 that
changes nothing; fetching it from a table holding `sampleMovie` (0
views) returns the row and stores it back with 1 view. -/
theorem get_movie_spec_witness :
    get_movie [] 1 = (.error ⟨404, "Movie not found"⟩, []) ∧
    (get_movie [sampleMovie] 1).1 = .ok sampleMovie ∧
    (get_movie [sampleMovie] 1).2 =
      [⟨1, "T", "Drama", 100, 3, "d", "u", false, 50, 1, 7⟩] := by
  have h2 := (get_movie_spec [sampleMovie] 1).2 sampleMovie rfl
  exact ⟨(get_movie_spec [] 1).1 (by decide), h2.1, by rw [h2.2]; rfl⟩

/-- C10: the record a successful `get_movie` call returns carries the
view count as it stood before that call's increment — the stored row for
the same id after the call holds exactly one view more than the value
returned to the client. -/
theorem get_movie_stale_read (movies : List MovieRow) (movie_id : Int)
    (m : MovieRow) (h : movies.find? (fun r => r.id == movie_id) = some m) :
    (get_movie movies movie_id).1 = .ok m ∧
    (get_movie movies movie_id).2.find? (fun r => r.id == movie_id) =
      some { m with views_count := m.views_count + 1 } := by
  have hpm : (m.id == movie_id) = true := by
    simpa using List.find?_some h
  refine ⟨by simp [get_movie, h], ?_⟩
  have h2 : (get_movie movies movie_id).2 =
      movies.map (fun r =>
        if r.id == movie_id then { r with views_count := r.views_count + 1 }
        else r) := by
    simp [get_movie, h]
  have hpf : ((fun r : MovieRow => r.id == movie_id) ∘ (fun r =>
      if r.id == movie_id then { r with views_count := r.views_count + 1 }
      else r)) = (fun r : MovieRow => r.id == movie_id) := by
    funext r
    by_cases hr : r.id = movie_id
    · simp [hr]
    · simp [hr]
  have hm2 : m.id = movie_id := by simpa using hpm
  rw [h2, List.find?_map, hpf, h]
  simp [hm2]

/-- Witness for C10: the client is shown `sampleMovie` with 0 views
while the table after the call stores the row with 1 view. -/
theorem get_movie_stale_read_witness :
    (get_movie [sampleMovie] 1).1 = .ok sampleMovie ∧
    (get_movie [sampleMovie] 1).2.find? (fun r => r.id == 1) =
      some { sampleMovie with views_count := sampleMovie.views_count + 1 } :=
  get_movie_stale_read [sampleMovie] 1 sampleMovie rfl

/-- Counterexample to C4 as stated: bcrypt derives its key from only
the first 72 bytes of the password, so the two distinct 73-byte
passwords differing in their last byte verify against each other's
hashes — hashing `p1` succeeds and `verify_password(p2, hash)` is
true. -/
theorem password_truncation_counterexample :
    (List.replicate 72 97 ++ [120] : List Nat) ≠
      List.replicate 72 97 ++ [121] ∧
    (hash_password 0 (List.replicate 72 97 ++ [120])).bind
        (verify_password (List.replicate 72 97 ++ [121])) = .ok true := by
  exact ⟨by decide, rfl⟩

/-- `hash_password` on a NUL-free password succeeds with the rendered
derived hash. -/
theorem hash_password_ok (salt : Nat) (p : List Nat) (hp : 0 ∉ p) :
    hash_password salt p = .ok (render_hash (bcrypt_derive p salt)) := by
  simp [hash_password, bcrypt_hashpw, hp, Except.map]

/-- C4 (amended): hashing round-trips on bcrypt's domain — for every
NUL-free password `p`, hashing succeeds and `verify_password` accepts
`p` against the produced hash; and verification of a NUL-free `p2`
against the hash of a NUL-free `p1` returns false whenever the two
passwords differ within their first 72 bytes (bcrypt's key length),
rather than merely being distinct. -/
theorem password_roundtrip (salt : Nat) (p p1 p2 : List Nat) :
    (0 ∉ p →
      (hash_password salt p).bind (verify_password p) = .ok true) ∧
    (0 ∉ p1 → 0 ∉ p2 →
      p1.take BCRYPT_MAX_KEY_BYTES ≠ p2.take BCRYPT_MAX_KEY_BYTES →
      (hash_password salt p1).bind (verify_password p2) = .ok false) := by
  constructor
  · intro hp
    rw [hash_password_ok salt p hp]
    simp [Except.bind, verify_password, bcrypt_checkpw, hp,
      zero_not_mem_render_hash, parse_render_hash, bcrypt_derive]
  · intro hp1 hp2 hne
    rw [hash_password_ok salt p1 hp1]
    simp [Except.bind, verify_password, bcrypt_checkpw, hp2,
      zero_not_mem_render_hash, parse_render_hash, bcrypt_derive,
      bcrypt_kdf, BcryptHash.mk.injEq, Ne.symm hne]

/-- Witness for C4 (amended): the password `[1]` verifies against its
own hash and the password `[2]` does not. -/
theorem password_roundtrip_witness :
    (hash_password 0 [1]).bind (verify_password [1]) = .ok true ∧
    (hash_password 0 [1]).bind (verify_password [2]) = .ok false :=
  ⟨(password_roundtrip 0 [1] [1] [2]).1 (by decide),
   (password_roundtrip 0 [1] [1] [2]).2 (by decide) (by decide) (by decide)⟩

/-- Counterexample to C5 as stated: on a malformed hash string (here the
empty byte string) `verify_password` propagates bcrypt's
`ValueError("Invalid salt")` instead of returning false. -/
theorem verify_password_malformed_counterexample :
    verify_password [] [] = .error "Invalid salt" ∧
    (Except.error "Invalid salt" : Except String Bool) ≠ .ok false := by
  refine ⟨rfl, ?_⟩
  intro h
  exact Except.noConfusion h

/-- C5 (amended): `verify_password` is not total on its hash argument —
it raises instead of answering false outside bcrypt's domain.  On
NUL-free arguments it returns a boolean without raising exactly when the
hash string is well-formed: a hash that does not parse raises the
"Invalid salt" error, and an argument containing a NUL byte raises the
package's NUL-byte error even against a well-formed hash. -/
theorem verify_password_total_on_wellformed (plain hs : List Nat) :
    (0 ∉ plain → 0 ∉ hs → parse_hash hs = none →
      verify_password plain hs = .error "Invalid salt") ∧
    (0 ∈ plain ∨ 0 ∈ hs →
      verify_password plain hs =
        .error "password and hashed_password may not contain NUL bytes") ∧
    (∀ h, 0 ∉ plain → 0 ∉ hs → parse_hash hs = some h →
      ∃ b, verify_password plain hs = .ok b) := by
  refine ⟨?_, ?_, ?_⟩
  · intro hplain hhs hp
    have hnul : ¬(0 ∈ plain ∨ 0 ∈ hs) := by
      intro hc
      rcases hc with hc | hc
      · exact hplain hc
      · exact hhs hc
    simp [verify_password, bcrypt_checkpw, hnul, hp]
  · intro hc
    simp [verify_password, bcrypt_checkpw, hc]
  · intro h hplain hhs hp
    have hnul : ¬(0 ∈ plain ∨ 0 ∈ hs) := by
      intro hc
      rcases hc with hc | hc
      · exact hplain hc
      · exact hhs hc
    exact ⟨bcrypt_derive plain h.salt == h,
      by simp [verify_password, bcrypt_checkpw, hnul, hp]⟩

/-- Witness for C5 (amended): the empty byte string is malformed and
raises "Invalid salt"; a NUL byte in the plaintext raises the NUL-byte
error even against a well-formed hash; a well-formed hash with a
NUL-free plaintext yields a boolean. -/
theorem verify_password_total_on_wellformed_witness :
    verify_password [1] [] = .error "Invalid salt" ∧
    verify_password [0] [36, 50, 98, 36, 1, 2] =
      .error "password and hashed_password may not contain NUL bytes" ∧
    (∃ b, verify_password [1] [36, 50, 98, 36, 1, 2] = .ok b) :=
  ⟨(verify_password_total_on_wellformed [1] []).1 (by decide) (by decide)
      rfl,
   (verify_password_total_on_wellformed [0] [36, 50, 98, 36, 1, 2]).2.1
     (Or.inl (by decide)),
   (verify_password_total_on_wellformed [1] [36, 50, 98, 36, 1, 2]).2.2
     ⟨0, [1]⟩ (by decide) (by decide) rfl⟩

/-- Counterexample to C8 as stated: no validation constrains the
pagination parameters — the request `limit = 0`, which violates
"accepts only ... limit > 0", is not rejected: it is answered with an
empty page and status 200. -/
theorem get_movies_limit_zero_accepted :
    get_movies [sampleMovie] 0 0 none = .ok [] := rfl

/-- C8 (amended): `get_movies` applies no validation to `skip` and
`limit` — a negative value reaches the storage layer and surfaces as a
500 storage error; for `skip ≥ 0` and `limit ≥ 0` it returns, with
status 200, exactly the rows whose genre equals the filter — all rows
when no genre is given — ordered by creation time descending, skipping
the first `skip` rows of that order and returning at most `limit`
rows. -/
theorem get_movies_spec (movies : List MovieRow) (genre : Option String)
    (skip limit : Int) :
    (skip < 0 ∨ limit < 0 →
      get_movies movies skip limit genre =
        .error ⟨500, "Internal Server Error"⟩) ∧
    (0 ≤ skip → 0 ≤ limit →
      ∃ l, get_movies movies skip limit genre = .ok l ∧
        l = (((movies.filter (genre_matches genre)).insertionSort
            moviesOrder).drop skip.toNat).take limit.toNat ∧
        (∀ g, genre = some g → ∀ m ∈ l, m.genre = g) ∧
        (genre = none →
          l = ((movies.insertionSort moviesOrder).drop skip.toNat).take
            limit.toNat) ∧
        (∀ m ∈ l, m ∈ movies) ∧
        l.length ≤ limit.toNat ∧
        List.Sorted moviesOrder l) := by
  constructor
  · intro hneg
    rw [get_movies, if_pos hneg]
  · intro hs hl
    have hcond : ¬(skip < 0 ∨ limit < 0) := by omega
    have hmem : ∀ m ∈ (((movies.filter (genre_matches genre)).insertionSort
        moviesOrder).drop skip.toNat).take limit.toNat,
        m ∈ movies.filter (genre_matches genre) := by
      intro m hm
      exact ((List.perm_insertionSort moviesOrder _).mem_iff).mp
        (List.mem_of_mem_drop (List.mem_of_mem_take hm))
    refine ⟨_, by rw [get_movies, if_neg hcond], rfl, ?_, ?_, ?_, ?_, ?_⟩
    · intro g hg m hm
      have := List.mem_filter.mp (hmem m hm)
      simpa [hg, genre_matches] using this.2
    · intro hg
      rw [hg]
      have : movies.filter (genre_matches none) = movies := by
        simp [genre_matches]
      rw [this]
    · intro m hm
      exact (List.mem_filter.mp (hmem m hm)).1
    · exact List.length_take_le _ _
    · exact List.Pairwise.sublist
        ((List.take_sublist _ _).trans (List.drop_sublist _ _))
        (List.sorted_insertionSort moviesOrder _)

/-- Witness for C8 (amended): a negative `skip` is a 500 storage error;
listing with genre "Drama" yields only "Drama" rows; listing with no
genre yields the whole table paged. -/
theorem get_movies_spec_witness :
    get_movies [sampleMovie] (-1) 5 none =
      .error ⟨500, "Internal Server Error"⟩ ∧
    (∃ l, get_movies [sampleMovie] 0 10 (some "Drama") = .ok l ∧
      (∀ m ∈ l, m.genre = "Drama")) ∧
    (∃ l, get_movies [sampleMovie] 0 10 none = .ok l ∧
      l = ((([sampleMovie] : List MovieRow).insertionSort
          moviesOrder).drop (0 : Int).toNat).take (10 : Int).toNat) := by
  refine ⟨(get_movies_spec [sampleMovie] none (-1) 5).1
    (Or.inl (by decide)), ?_, ?_⟩
  · obtain ⟨l, h1, _, hsome, _, _, _, _⟩ :=
      (get_movies_spec [sampleMovie] (some "Drama") 0 10).2
        (by decide) (by decide)
    exact ⟨l, h1, hsome "Drama" rfl⟩
  · obtain ⟨l, h1, _, _, hnone, _, _, _⟩ :=
      (get_movies_spec [sampleMovie] none 0 10).2 (by decide) (by decide)
    exact ⟨l, h1, hnone rfl⟩

/-- An active stored user used by concrete evaluations. -/
def sampleUser : UserRow :=
  ⟨7, "a@x.com", "alice", [], true, 0⟩

/-- C9 at the failing input: an authenticated, valid create request
inserts the movie row stamped with the creator's id 7 and the current
time 60 — but the handler's value is `none`, because the function body
of `create_movie` ends with the `fetchrow` assignment and has no return
statement, so the client receives the 500 response and never the created
record (whose `user_id` the `Movie` response model could in any case not
carry, having no such field). -/
theorem create_movie_missing_return :
    create_movie [] sampleUser sampleMovieCreate 60 1 =
      (none, [⟨1, "T", "Drama", 100, 3, "d", "u", false, 60, 0, 7⟩]) ∧
    post_movies "secret" 60
        (some ⟨"Bearer", .wire (.token (create_access_token "secret" 7 0))⟩)
        [sampleUser] [] sampleMovieCreate 1 =
      (.error ⟨500, "Internal Server Error"⟩,
        [⟨1, "T", "Drama", 100, 3, "d", "u", false, 60, 0, 7⟩]) :=
  ⟨rfl, rfl⟩

end FrameApp
